import Mathlib

/-!
# Omni_Calendar (`Omni_Diary.py`) — verification development

A shallow embedding of the retrieval/context-assembly core of the diary
application: the context builder `DiaryApp.prepare_rag_context`, the prompt
formatter `LLMQuery.format_rag_context`, the analysis requester
`LLMQuery.query_llm`, and the validated save path `DiaryApp.save_diary_entry`.

Modelling conventions:
* Python dicts are association lists in insertion order (`List (String × String)`).
* `QDateTime` values are modelled at minute precision (`QDT`); an invalid
  `QDateTime` (as produced by `QDateTime.fromString` on a malformed key) is
  `Option.none`.  Qt's `QDateTime::daysTo` is `date().daysTo(other.date())`,
  a difference of Julian day numbers, and returns `0` when either datetime
  is invalid; `qDaysTo` mirrors this.
* Python's stable ascending `list.sort(key=...)`/`sorted(key=...)` is embedded
  as a stable insertion sort (`pySort`); a stable sort is determined uniquely
  by the (total, transitive) key comparison, so this is extensionally the
  same function.
* Python's `str.strip()` (over the ASCII whitespace set) is `pyStrip`.
-/

/-- Python's whitespace test used by `str.strip` (ASCII whitespace set). -/
def pyIsSpace (c : Char) : Bool :=
  c == ' ' || c == '\t' || c == '\n' || c == '\r' || c == '\x0b' || c == '\x0c'

/-- Python's `str.strip()`: drop leading and trailing whitespace characters. -/
def pyStrip (l : List Char) : List Char :=
  ((l.dropWhile pyIsSpace).reverse.dropWhile pyIsSpace).reverse

/-- Insert into a sorted list, before the first element not `le`-below `a`
(the stable-sort insertion step). -/
def pyInsert (le : α → α → Bool) (a : α) : List α → List α
  | [] => [a]
  | b :: bs => if le a b then a :: b :: bs else b :: pyInsert le a bs

/-- Stable ascending sort, embedding Python's `sorted`/`list.sort`. -/
def pySort (le : α → α → Bool) : List α → List α
  | [] => []
  | a :: as => pyInsert le a (pySort le as)

theorem mem_pyInsert (le : α → α → Bool) (a x : α) (l : List α) :
    x ∈ pyInsert le a l ↔ x = a ∨ x ∈ l := by
  induction l with
  | nil => simp [pyInsert]
  | cons b bs ih =>
    by_cases h : le a b
    · simp [pyInsert, h]
    · simp [pyInsert, h, ih]
      tauto

theorem mem_pySort (le : α → α → Bool) (x : α) (l : List α) :
    x ∈ pySort le l ↔ x ∈ l := by
  induction l with
  | nil => simp [pySort]
  | cons a as ih => simp [pySort, mem_pyInsert, ih]

theorem pairwise_pyInsert (le : α → α → Bool)
    (htrans : ∀ x y z, le x y = true → le y z = true → le x z = true)
    (htot : ∀ x y, le x y = true ∨ le y x = true)
    (a : α) (l : List α) (hl : l.Pairwise (fun x y => le x y = true)) :
    (pyInsert le a l).Pairwise (fun x y => le x y = true) := by
  induction l with
  | nil => simp [pyInsert]
  | cons b bs ih =>
    rw [List.pairwise_cons] at hl
    obtain ⟨hb, hbs⟩ := hl
    by_cases h : le a b = true
    · rw [show pyInsert le a (b :: bs) = a :: b :: bs from by simp [pyInsert, h]]
      refine List.Pairwise.cons ?_ (List.Pairwise.cons hb hbs)
      intro x hx
      rcases List.mem_cons.1 hx with rfl | hx
      · exact h
      · exact htrans _ _ _ h (hb x hx)
    · rw [show pyInsert le a (b :: bs) = b :: pyInsert le a bs from by
        simp [pyInsert, h]]
      refine List.Pairwise.cons ?_ (ih hbs)
      intro x hx
      rcases (mem_pyInsert le a x bs).1 hx with rfl | hx
      · rcases htot x b with hxb | hbx
        · exact absurd hxb h
        · exact hbx
      · exact hb x hx

theorem pairwise_pySort (le : α → α → Bool)
    (htrans : ∀ x y z, le x y = true → le y z = true → le x z = true)
    (htot : ∀ x y, le x y = true ∨ le y x = true)
    (l : List α) : (pySort le l).Pairwise (fun x y => le x y = true) := by
  induction l with
  | nil => simp [pySort]
  | cons a as ih => exact pairwise_pyInsert le htrans htot a _ ih

theorem pyInsert_of_forall_le (le : α → α → Bool) (a : α) (l : List α)
    (h : ∀ x ∈ l, le a x = true) : pyInsert le a l = a :: l := by
  cases l with
  | nil => rfl
  | cons b bs => simp [pyInsert, h b (List.mem_cons_self b bs)]

theorem pySort_of_pairwise (le : α → α → Bool) (l : List α)
    (hl : l.Pairwise (fun x y => le x y = true)) : pySort le l = l := by
  induction l with
  | nil => rfl
  | cons a as ih =>
    rw [List.pairwise_cons] at hl
    rw [show pySort le (a :: as) = pyInsert le a (pySort le as) from rfl,
      ih hl.2, pyInsert_of_forall_le le a as hl.1]

/-! ## The datetime model (`QDateTime` at minute precision) -/

/-- A valid Qt datetime at minute precision (the resolution of the
`"yyyy-MM-dd HH:mm"` keys; seconds never influence any computation in scope). -/
structure QDT where
  year : Nat
  month : Nat
  day : Nat
  hour : Nat
  minute : Nat
deriving DecidableEq, Repr

/-- Leap-year test of the proleptic Gregorian calendar (as used by `QDate`). -/
def isLeap (y : Nat) : Bool :=
  (y % 4 == 0 && y % 100 != 0) || y % 400 == 0

/-- Number of days in a month of the Gregorian calendar. -/
def daysInMonth (y m : Nat) : Nat :=
  if m = 2 then (if isLeap y then 29 else 28)
  else if m = 4 ∨ m = 6 ∨ m = 9 ∨ m = 11 then 30
  else 31

/-- Day count of a Gregorian date from the civil epoch (days-from-civil
algorithm, shifted to stay in `Nat`; only differences are ever used, exactly
as in `QDate::daysTo`, so the shift cancels).  Valid for `1 ≤ y`. -/
def civilDays (y m d : Nat) : Nat :=
  let y' := if m ≤ 2 then y - 1 else y
  let era := y' / 400
  let yoe := y' % 400
  let mp := if 2 < m then m - 3 else m + 9
  let doy := (153 * mp + 2) / 5 + (d - 1)
  let doe := yoe * 365 + yoe / 4 - yoe / 100 + doy
  era * 146097 + doe

/-- Inverse of `civilDays` (civil-from-days), used by `QDateTime::addDays`. -/
def civilFromDays (z : Int) : Nat × Nat × Nat :=
  let era : Int := z.fdiv 146097
  let doe : Nat := (z - era * 146097).toNat
  let yoe : Nat := (doe - doe / 1460 + doe / 36524 - doe / 146096) / 365
  let y : Int := (yoe : Int) + era * 400
  let doy : Nat := doe - (365 * yoe + yoe / 4 - yoe / 100)
  let mp : Nat := (5 * doy + 2) / 153
  let dd : Nat := doy - (153 * mp + 2) / 5 + 1
  let mm : Nat := if mp < 10 then mp + 3 else mp - 9
  ((if mm ≤ 2 then y + 1 else y).toNat, mm, dd)

/-- `QDateTime::addDays`: shift the date, keep the time of day. -/
def addDays (dt : QDT) (n : Int) : QDT :=
  let c := civilFromDays ((civilDays dt.year dt.month dt.day : Int) + n)
  ⟨c.1, c.2.1, c.2.2, dt.hour, dt.minute⟩

/-- `QDateTime::daysTo`: difference of the dates' Julian day numbers
(midnight crossings).  Qt returns `0` when either datetime is invalid. -/
def qDaysTo : Option QDT → Option QDT → Int
  | some a, some b =>
      (civilDays b.year b.month b.day : Int) - (civilDays a.year a.month a.day : Int)
  | _, _ => 0

/-- A decimal digit character. -/
def isDigitChar (c : Char) : Prop := 48 ≤ c.toNat ∧ c.toNat ≤ 57

instance (c : Char) : Decidable (isDigitChar c) := by
  unfold isDigitChar; infer_instance

/-- Numeric value of a digit character. -/
def dval (c : Char) : Nat := c.toNat - 48

/-- Decimal value of a two-digit group. -/
def dv2 (a b : Char) : Nat := dval a * 10 + dval b

/-- Decimal value of a four-digit group. -/
def dv4 (a b c d : Char) : Nat := ((dval a * 10 + dval b) * 10 + dval c) * 10 + dval d

/-- `QDateTime.fromString(s, "yyyy-MM-dd HH:mm")`: the whole string must match
the pattern (four digits, dash, two digits, dash, two digits, space, two
digits, colon, two digits) and denote a valid Gregorian date and time of day;
otherwise the result is an invalid datetime (`none`). -/
def qparse (s : String) : Option QDT :=
  match s.data with
  | [y1, y2, y3, y4, c1, m1, m2, c2, d1, d2, c3, h1, h2, c4, n1, n2] =>
    if c1 = '-' ∧ c2 = '-' ∧ c3 = ' ' ∧ c4 = ':' ∧
        isDigitChar y1 ∧ isDigitChar y2 ∧ isDigitChar y3 ∧ isDigitChar y4 ∧
        isDigitChar m1 ∧ isDigitChar m2 ∧ isDigitChar d1 ∧ isDigitChar d2 ∧
        isDigitChar h1 ∧ isDigitChar h2 ∧ isDigitChar n1 ∧ isDigitChar n2 then
      if 1 ≤ dv4 y1 y2 y3 y4 ∧ 1 ≤ dv2 m1 m2 ∧ dv2 m1 m2 ≤ 12 ∧ 1 ≤ dv2 d1 d2 ∧
          dv2 d1 d2 ≤ daysInMonth (dv4 y1 y2 y3 y4) (dv2 m1 m2) ∧
          dv2 h1 h2 ≤ 23 ∧ dv2 n1 n2 ≤ 59 then
        some ⟨dv4 y1 y2 y3 y4, dv2 m1 m2, dv2 d1 d2, dv2 h1 h2, dv2 n1 n2⟩
      else none
    else none
  | _ => none

example : qparse "2024-06-10 09:00" = some ⟨2024, 6, 10, 9, 0⟩ := by decide
example : qparse "not-a-date" = none := by decide
example : qparse "2024-06-31 09:00" = none := by decide
example : qDaysTo (qparse "2024-06-03 23:00") (qparse "2024-06-10 09:00") = 7 := by decide
example : qDaysTo none (qparse "2024-06-10 09:00") = 0 := by decide

/-! ## The retrieval context (`DiaryApp.prepare_rag_context`) -/

/-- An item of `context["recent_events"]`:
`{"datetime": ..., "content": ..., "days_ago": abs(days_difference)}`. -/
structure RecentItem where
  datetime : String
  content : String
  days_ago : Nat
deriving DecidableEq, Repr

/-- An item of `context["upcoming_events"]`:
`{"datetime": ..., "event": ..., "days_until": ..., "is_urgent": ...}`. -/
structure UpcomingItem where
  datetime : String
  event : String
  days_until : Int
  is_urgent : Bool
deriving DecidableEq, Repr

/-- `context["date_range"]`. -/
structure DateRange where
  start : String
  «end» : String
deriving DecidableEq, Repr

/-- The context dict built by `DiaryApp.prepare_rag_context`. -/
structure RagContext where
  current_datetime : String
  recent_events : List RecentItem
  upcoming_events : List UpcomingItem
  date_range : DateRange
deriving DecidableEq, Repr

/-- Decimal rendering of a `Nat` padded to two digits (Qt's `MM`/`dd`/`HH`/`mm`). -/
def pad2 (n : Nat) : String :=
  if n < 10 then "0" ++ Nat.repr n else Nat.repr n

/-- Decimal rendering of a `Nat` padded to four digits (Qt's `yyyy`). -/
def pad4 (n : Nat) : String :=
  if n < 10 then "000" ++ Nat.repr n
  else if n < 100 then "00" ++ Nat.repr n
  else if n < 1000 then "0" ++ Nat.repr n
  else Nat.repr n

/-- `toString("yyyy-MM-dd")`. -/
def fmtDate (dt : QDT) : String :=
  pad4 dt.year ++ "-" ++ pad2 dt.month ++ "-" ++ pad2 dt.day

/-- `toString("yyyy-MM-dd HH:mm:ss")` (seconds are `00` at the model's
minute precision). -/
def fmtDateTimeSec (dt : QDT) : String :=
  fmtDate dt ++ " " ++ pad2 dt.hour ++ ":" ++ pad2 dt.minute ++ ":00"

/-- Body of the diary loop of `prepare_rag_context`: parse the key, compute
`days_difference = entry_datetime.daysTo(current_datetime)`, and keep the
entry when `-7 <= days_difference <= 0`, with `days_ago = abs(days_difference)`. -/
def recentFilter (current_datetime : QDT) (kv : String × String) : Option RecentItem :=
  let days_difference := qDaysTo (qparse kv.1) (some current_datetime)
  if -7 ≤ days_difference ∧ days_difference ≤ 0 then
    some ⟨kv.1, kv.2, days_difference.natAbs⟩
  else none

/-- Body of the events loop of `prepare_rag_context`: parse the key, compute
`days_difference = current_datetime.daysTo(event_datetime)`, and keep the
event when `0 <= days_difference <= 14`, with `is_urgent = (days_difference <= 3)`. -/
def upcomingFilter (current_datetime : QDT) (kv : String × String) : Option UpcomingItem :=
  let days_difference := qDaysTo (some current_datetime) (qparse kv.1)
  if 0 ≤ days_difference ∧ days_difference ≤ 14 then
    some ⟨kv.1, kv.2, days_difference, decide (days_difference ≤ 3)⟩
  else none

/-- Strict code-point lexicographic comparison of character lists
(Python's `<` on strings), by structural recursion. -/
def charListLt : List Char → List Char → Bool
  | [], [] => false
  | [], _ :: _ => true
  | _ :: _, [] => false
  | a :: as, b :: bs => decide (a < b) || (a == b && charListLt as bs)

/-- Python's `<=` on strings: code-point lexicographic. -/
def strLe (a b : String) : Bool := !charListLt b.data a.data

/-- Comparison used by `list.sort(key=lambda x: x["datetime"])`. -/
def leRecent (a b : RecentItem) : Bool := strLe a.datetime b.datetime

/-- Comparison used by `list.sort(key=lambda x: x["datetime"])`. -/
def leUpcoming (a b : UpcomingItem) : Bool := strLe a.datetime b.datetime

/-- `DiaryApp.prepare_rag_context(current_datetime)` over the two mappings
`self.diary_entries` and `self.calendar_events`. -/
def prepare_rag_context (current_datetime : QDT)
    (diary_entries calendar_events : List (String × String)) : RagContext :=
  { current_datetime := fmtDateTimeSec current_datetime
    recent_events :=
      pySort leRecent (diary_entries.filterMap (recentFilter current_datetime))
    upcoming_events :=
      pySort leUpcoming (calendar_events.filterMap (upcomingFilter current_datetime))
    date_range :=
      { start := fmtDate (addDays current_datetime (-7))
        «end» := fmtDate (addDays current_datetime 14) } }

/-- Note the direction of `daysTo`: `entry_datetime.daysTo(current_datetime)`
is `now - entry` in whole days, so `-7 <= days_difference <= 0` holds for
entries dated from `now` up to seven days *after* `now`, and fails for every
entry in the past week. -/
example :
    (prepare_rag_context ⟨2024, 6, 10, 9, 0⟩
      [("2024-06-03 08:00", "ok"), ("2024-06-09 20:00", "fine"), ("2024-06-13 08:00", "next"),
       ("2024-05-01 10:00", "old")]
      [("2024-06-12 10:00", "dentist"), ("2024-07-01 10:00", "trip")]).recent_events =
    [⟨"2024-06-13 08:00", "next", 3⟩] := by decide

example :
    (prepare_rag_context ⟨2024, 6, 10, 9, 0⟩ [] [("2024-06-12 10:00", "dentist"), ("2024-07-01 10:00", "trip")]).upcoming_events =
    [⟨"2024-06-12 10:00", "dentist", 2, true⟩] := by decide

example :
    (prepare_rag_context ⟨2024, 6, 10, 9, 0⟩ [] []).date_range =
    ⟨"2024-06-03", "2024-06-24"⟩ := by decide

/-! ## The prompt formatter (`LLMQuery.format_rag_context`) -/

/-- One diary line of the formatted context:
`f"[{entry['datetime']}] {entry['content'][:200]}{'...' if len(entry['content']) > 200 else ''}"`. -/
def entryLine (e : RecentItem) : String :=
  "[" ++ e.datetime ++ "] " ++ (e.content.data.take 200).asString ++
    (if 200 < e.content.length then "..." else "")

/-- One calendar line of the formatted context:
`f"[{event['datetime']}] {event['event']}"`. -/
def eventLine (e : UpcomingItem) : String :=
  "[" ++ e.datetime ++ "] " ++ e.event

/-- The dict returned by `LLMQuery.format_rag_context`. -/
structure FormattedContext where
  current_datetime : String
  date_range : DateRange
  formatted_diary_entries : String
  formatted_calendar_events : String
deriving DecidableEq, Repr

/-- `LLMQuery.format_rag_context(context)`: renders each sequence after
sorting it by its `datetime` key (`sorted(..., key=lambda x: x['datetime'])`),
joining the lines with newlines. -/
def format_rag_context (context : RagContext) : FormattedContext :=
  { current_datetime := context.current_datetime
    date_range := context.date_range
    formatted_diary_entries :=
      String.intercalate "\n" ((pySort leRecent context.recent_events).map entryLine)
    formatted_calendar_events :=
      String.intercalate "\n" ((pySort leUpcoming context.upcoming_events).map eventLine) }

/-- Rendering of the recent diary entries in exactly the order in which they
appear in the input context (the spec's description of the formatter, which
"must not re-sort or reorder them"). -/
def renderDiaryInInputOrder (context : RagContext) : String :=
  String.intercalate "\n" (context.recent_events.map entryLine)

/-- Rendering of the upcoming events in exactly the order in which they
appear in the input context (the spec's description of the formatter). -/
def renderEventsInInputOrder (context : RagContext) : String :=
  String.intercalate "\n" (context.upcoming_events.map eventLine)

/-! ## The analysis requester (`LLMQuery.query_llm`) -/

/-- A decoded JSON value, the result of `response.json()`. -/
inductive JValue where
  | null
  | bool (b : Bool)
  | num (n : Int)
  | str (s : String)
  | arr (elems : List JValue)
  | obj (fields : List (String × JValue))

/-- Containment of one character list in another (Python's `in` on strings). -/
def strContains (needle : List Char) : List Char → Bool
  | [] => needle.isEmpty
  | c :: rest => needle.isPrefixOf (c :: rest) || strContains needle rest

/-- Python truthiness of a decoded JSON value. -/
def jTruthy : JValue → Bool
  | .null => false
  | .bool b => b
  | .num n => !(n == 0)
  | .str s => !(s == "")
  | .arr elems => !elems.isEmpty
  | .obj fields => !fields.isEmpty

/-- Python's `key in value` on a decoded JSON value: dict key containment,
list membership, substring test on strings; `TypeError` otherwise. -/
def jContains (key : String) : JValue → Except String Bool
  | .obj fields => .ok (fields.any (fun kv => kv.1 == key))
  | .arr elems =>
    .ok (elems.any (fun v => match v with | .str s => s == key | _ => false))
  | .str s => .ok (strContains key.data s.data)
  | _ => .error "TypeError: argument is not iterable"

/-- Python's `value[key]` for a string key: dict lookup (`KeyError` when
missing), `TypeError` on any other value. -/
def jIndexStr (j : JValue) (key : String) : Except String JValue :=
  match j with
  | .obj fields =>
    match fields.lookup key with
    | some v => .ok v
    | none => .error "KeyError"
  | _ => .error "TypeError: indices must be integers"

/-- Python's `value[0]`: first element of a list or string (`IndexError` when
empty), `TypeError` on any other value. -/
def jIndexZero : JValue → Except String JValue
  | .arr (v :: _) => .ok v
  | .arr [] => .error "IndexError: list index out of range"
  | .str s =>
    match s.data with
    | c :: _ => .ok (.str (String.mk [c]))
    | [] => .error "IndexError: string index out of range"
  | _ => .error "TypeError: value is not subscriptable"

/-- Python's `value.get(key, default)`: a dict method (`AttributeError` on
anything that is not a dict). -/
def jGet (j : JValue) (key : String) (dflt : JValue) : Except String JValue :=
  match j with
  | .obj fields => .ok ((fields.lookup key).getD dflt)
  | _ => .error "AttributeError: no attribute get"

/-- Python's `value.strip()`: a string method (`AttributeError` otherwise). -/
def jStrip : JValue → Except String String
  | .str s => .ok (pyStrip s.data).asString
  | _ => .error "AttributeError: no attribute strip"

/-- The result-extraction expression of `query_llm`:
`result["choices"][0].get("text", "No analysis available").strip()
 if "choices" in result and result["choices"] else "No analysis available"`,
with Python's exceptions surfaced in `Except`. -/
def extractAnalysisText (result : JValue) : Except String String :=
  match jContains "choices" result with
  | .error e => .error e
  | .ok hasKey =>
    if hasKey then
      match jIndexStr result "choices" with
      | .error e => .error e
      | .ok choices =>
        if jTruthy choices then
          match jIndexZero choices with
          | .error e => .error e
          | .ok first =>
            match jGet first "text" (.str "No analysis available") with
            | .error e => .error e
            | .ok textVal => jStrip textVal
        else .ok "No analysis available"
    else .ok "No analysis available"

/-- Outcome of the HTTP layer of `query_llm`
(`requests.post(...)`, `response.raise_for_status()`, `response.json()`):
either a decoded JSON body, or the exception the library raised. -/
inductive HttpOutcome where
  | connectionError (msg : String)
  | timeoutError (msg : String)
  | httpStatusError (msg : String)
  | jsonDecodeError (msg : String)
  | parsed (body : JValue)

/-- Whether the raised exception is a `requests.exceptions.RequestException`.
Connection errors, timeouts and `HTTPError` (from `raise_for_status`) all are;
so is the `JSONDecodeError` raised by `response.json()` on an unparseable
body, which derives from `InvalidJSONError`, itself a `RequestException`
(requests ≥ 2.27). -/
def isRequestException : HttpOutcome → Bool
  | .connectionError _ => true
  | .timeoutError _ => true
  | .httpStatusError _ => true
  | .jsonDecodeError _ => true
  | .parsed _ => false

/-- The message carried by the exception (`str(e)`). -/
def outcomeMsg : HttpOutcome → String
  | .connectionError m => m
  | .timeoutError m => m
  | .httpStatusError m => m
  | .jsonDecodeError m => m
  | .parsed _ => ""

/-- `LLMQuery.query_llm` from the HTTP outcome on: the
`except requests.exceptions.RequestException` clause re-raises as
`"Failed to connect to LLM: ..."`; the following `except Exception` clause
(which therefore only sees non-`RequestException` errors, i.e. exceptions of
the extraction expression) re-raises as `"Error processing LLM response: ..."`. -/
def query_llm (outcome : HttpOutcome) : Except String String :=
  match outcome with
  | .parsed body =>
    match extractAnalysisText body with
    | .ok s => .ok s
    | .error msg => .error ("Error processing LLM response: " ++ msg)
  | e =>
    if isRequestException e then
      .error ("Failed to connect to LLM: " ++ outcomeMsg e)
    else
      .error ("Error processing LLM response: " ++ outcomeMsg e)

example :
    query_llm (.parsed (.obj [("choices", .arr [.obj [("text", .str "  hello  ")]])])) =
    .ok "hello" := rfl
example :
    query_llm (.parsed (.obj [("choices", .arr [])])) = .ok "No analysis available" := rfl
example :
    query_llm (.timeoutError "timed out") = .error "Failed to connect to LLM: timed out" :=
  rfl

/-! ## Validation and the save path (`DataValidator`, `DiaryApp.save_diary_entry`) -/

/-- `DataValidator.validate_entry(entry)`: `bool(entry.strip())`. -/
def validate_entry (entry : String) : Bool := !(pyStrip entry.data).isEmpty

/-- Python dict assignment `m[k] = v`: overwrite in place if the key exists,
append otherwise (insertion order preserved). -/
def dictSet (m : List (String × String)) (k v : String) : List (String × String) :=
  if m.any (fun kv => kv.1 == k) then
    m.map (fun kv => if kv.1 == k then (k, v) else kv)
  else m ++ [(k, v)]

/-- The mutable state touched by `save_diary_entry`: the in-memory diary
mapping and the persisted `diary_entries.json` document. -/
structure AppState where
  diary_entries : List (String × String)
  disk_diary : List (String × String)
deriving DecidableEq, Repr

/-- `DiaryApp.save_diary_entry` on one entry: validate, and only on success
update the in-memory mapping and persist it (`save_json`); on validation
failure show `"Diary entry cannot be empty."` and mutate nothing. -/
def save_diary_entry (st : AppState) (datetime_str entry : String) :
    AppState × Except String Unit :=
  if validate_entry entry then
    let d := dictSet st.diary_entries datetime_str entry
    ({ diary_entries := d, disk_diary := d }, .ok ())
  else
    (st, .error "Diary entry cannot be empty.")

example :
    save_diary_entry ⟨[("2024-06-01 10:00", "a")], [("2024-06-01 10:00", "a")]⟩
      "2024-06-02 11:00" "  \t " =
    (⟨[("2024-06-01 10:00", "a")], [("2024-06-01 10:00", "a")]⟩,
      .error "Diary entry cannot be empty.") := rfl

/-! ## Helper lemmas -/

theorem lex_cons_iff' {α : Type} {r : α → α → Prop} {a b : α} {l₁ l₂ : List α} :
    List.Lex r (a :: l₁) (b :: l₂) ↔ r a b ∨ (a = b ∧ List.Lex r l₁ l₂) := by
  constructor
  · intro h
    cases h with
    | cons h => exact Or.inr ⟨rfl, h⟩
    | rel h => exact Or.inl h
  · rintro (h | ⟨rfl, h⟩)
    · exact List.Lex.rel h
    · exact List.Lex.cons h

theorem lex_nil_nil {α : Type} {r : α → α → Prop} : List.Lex r [] [] ↔ False :=
  ⟨fun h => (nomatch h), False.elim⟩

theorem charListLt_iff : ∀ as bs : List Char,
    charListLt as bs = true ↔ List.Lex (· < ·) as bs := by
  intro as
  induction as with
  | nil =>
    intro bs
    cases bs with
    | nil => simp [charListLt, lex_nil_nil]
    | cons b bs =>
      simp only [charListLt, true_iff]
      exact List.Lex.nil
  | cons a as ih =>
    intro bs
    cases bs with
    | nil =>
      simp only [charListLt, Bool.false_eq_true, false_iff]
      exact List.Lex.not_nil_right _ _
    | cons b bs =>
      simp [charListLt, lex_cons_iff', ih, decide_eq_true_eq, beq_iff_eq]

theorem strLe_iff (a b : String) : strLe a b = true ↔ a ≤ b := by
  rw [strLe, Bool.not_eq_true']
  rw [show (a ≤ b) = ¬ b < a from (propext not_lt).symm]
  rw [show (b < a) ↔ List.Lex (· < ·) b.data a.data from String.lt_iff_toList_lt]
  rw [← charListLt_iff]
  constructor
  · intro h hc
    rw [h] at hc
    exact Bool.false_ne_true hc
  · intro h
    exact Bool.eq_false_iff.2 (fun hc => h hc)

theorem charLt_iff_toNat {a b : Char} : a < b ↔ a.toNat < b.toNat := by
  rw [Char.lt_def, UInt32.lt_def, BitVec.lt_def]; rfl

theorem charEq_iff_toNat {a b : Char} : a = b ↔ a.toNat = b.toNat :=
  ⟨fun h => h ▸ rfl, fun h => Char.ext (UInt32.toNat.inj h)⟩

/-- Strict chronological order on datetimes (year, then month, day, hour,
minute) — the spec's notion of chronological comparison. -/
def chronLt (a b : QDT) : Prop :=
  a.year < b.year ∨ (a.year = b.year ∧ (a.month < b.month ∨ (a.month = b.month ∧
    (a.day < b.day ∨ (a.day = b.day ∧ (a.hour < b.hour ∨ (a.hour = b.hour ∧
      a.minute < b.minute)))))))

instance (a b : QDT) : Decidable (chronLt a b) := by
  unfold chronLt; infer_instance

/-- Chronological order, non-strict. -/
def chronLe (a b : QDT) : Prop := chronLt a b ∨ a = b

instance (a b : QDT) : Decidable (chronLe a b) := by
  unfold chronLe; infer_instance

theorem chronLe_iff_not_chronLt (a b : QDT) : chronLe a b ↔ ¬ chronLt b a := by
  cases a; cases b
  simp only [chronLt, chronLe, QDT.mk.injEq]
  omega

/-- Eliminator for a successful parse: the string is exactly the sixteen
characters of the `yyyy-MM-dd HH:mm` pattern and the datetime's fields are
the decimal values of its digit groups. -/
theorem qparse_some_elim {s : String} {d : QDT} (h : qparse s = some d) {C : Prop}
    (k : ∀ y1 y2 y3 y4 m1 m2 d1 d2 h1 h2 n1 n2 : Char,
      s.data = [y1, y2, y3, y4, '-', m1, m2, '-', d1, d2, ' ', h1, h2, ':', n1, n2] →
      isDigitChar y1 → isDigitChar y2 → isDigitChar y3 → isDigitChar y4 →
      isDigitChar m1 → isDigitChar m2 → isDigitChar d1 → isDigitChar d2 →
      isDigitChar h1 → isDigitChar h2 → isDigitChar n1 → isDigitChar n2 →
      d = ⟨dv4 y1 y2 y3 y4, dv2 m1 m2, dv2 d1 d2, dv2 h1 h2, dv2 n1 n2⟩ → C) : C := by
  unfold qparse at h
  split at h
  · rename_i y1 y2 y3 y4 c1 m1 m2 c2 d1 d2 c3 h1 h2 c4 n1 n2 heq
    split at h
    · rename_i hcond
      obtain ⟨hc1, hc2, hc3, hc4, hy1, hy2, hy3, hy4, hm1, hm2, hd1, hd2, hh1, hh2, hn1, hn2⟩ :=
        hcond
      split at h
      · subst hc1; subst hc2; subst hc3; subst hc4
        exact k y1 y2 y3 y4 m1 m2 d1 d2 h1 h2 n1 n2 heq hy1 hy2 hy3 hy4 hm1 hm2 hd1 hd2
          hh1 hh2 hn1 hn2 (Option.some.inj h).symm
      · exact absurd h (by simp)
    · exact absurd h (by simp)
  · exact absurd h (by simp)

/-- On strings accepted by `qparse`, lexicographic string order is exactly
strict chronological order of the parsed datetimes. -/
theorem qparse_lt_iff {s₁ s₂ : String} {d₁ d₂ : QDT}
    (h₁ : qparse s₁ = some d₁) (h₂ : qparse s₂ = some d₂) :
    s₁ < s₂ ↔ chronLt d₁ d₂ := by
  refine qparse_some_elim h₁ ?_
  intro y1 y2 y3 y4 m1 m2 dd1 dd2 hh1 hh2 n1 n2 heq₁ hy1 hy2 hy3 hy4 hm1 hm2 hd1 hd2
    hhh1 hhh2 hn1 hn2 hdt₁
  refine qparse_some_elim h₂ ?_
  intro y1' y2' y3' y4' m1' m2' dd1' dd2' hh1' hh2' n1' n2' heq₂ hy1' hy2' hy3' hy4'
    hm1' hm2' hd1' hd2' hhh1' hhh2' hn1' hn2' hdt₂
  subst hdt₁; subst hdt₂
  rw [String.lt_iff_toList_lt]
  have e₁ : s₁.toList = _ := heq₁
  have e₂ : s₂.toList = _ := heq₂
  rw [e₁, e₂, show ∀ l₁ l₂ : List Char, (l₁ < l₂ ↔ List.Lex (· < ·) l₁ l₂) from
    fun _ _ => Iff.rfl]
  simp only [lex_cons_iff', lex_nil_nil, lt_self_iff_false, charLt_iff_toNat,
    charEq_iff_toNat, chronLt, dv4, dv2, dval, and_false, or_false, false_or, true_and]
  simp only [isDigitChar] at *
  omega

/-- On strings accepted by `qparse`, lexicographic string order (non-strict)
is exactly chronological order of the parsed datetimes. -/
theorem qparse_le_iff {s₁ s₂ : String} {d₁ d₂ : QDT}
    (h₁ : qparse s₁ = some d₁) (h₂ : qparse s₂ = some d₂) :
    s₁ ≤ s₂ ↔ chronLe d₁ d₂ := by
  rw [← not_lt, qparse_lt_iff h₂ h₁, ← chronLe_iff_not_chronLt]

theorem leRecent_trans :
    ∀ x y z, leRecent x y = true → leRecent y z = true → leRecent x z = true := by
  intro x y z
  simp only [leRecent, strLe_iff]
  exact le_trans

theorem leRecent_total : ∀ x y, leRecent x y = true ∨ leRecent y x = true := by
  intro x y
  simp only [leRecent, strLe_iff]
  exact le_total _ _

theorem leUpcoming_trans :
    ∀ x y z, leUpcoming x y = true → leUpcoming y z = true → leUpcoming x z = true := by
  intro x y z
  simp only [leUpcoming, strLe_iff]
  exact le_trans

theorem leUpcoming_total : ∀ x y, leUpcoming x y = true ∨ leUpcoming y x = true := by
  intro x y
  simp only [leUpcoming, strLe_iff]
  exact le_total _ _

theorem mem_recent_events (now : QDT) (diary events : List (String × String))
    (r : RecentItem) :
    r ∈ (prepare_rag_context now diary events).recent_events ↔
      ∃ kv, kv ∈ diary ∧ recentFilter now kv = some r := by
  rw [show (prepare_rag_context now diary events).recent_events =
    pySort leRecent (diary.filterMap (recentFilter now)) from rfl, mem_pySort]
  exact List.mem_filterMap

theorem mem_upcoming_events (now : QDT) (diary events : List (String × String))
    (u : UpcomingItem) :
    u ∈ (prepare_rag_context now diary events).upcoming_events ↔
      ∃ kv, kv ∈ events ∧ upcomingFilter now kv = some u := by
  rw [show (prepare_rag_context now diary events).upcoming_events =
    pySort leUpcoming (events.filterMap (upcomingFilter now)) from rfl, mem_pySort]
  exact List.mem_filterMap

theorem recentFilter_eq_some (now : QDT) (kv : String × String) (r : RecentItem) :
    recentFilter now kv = some r ↔
      ((-7 ≤ qDaysTo (qparse kv.1) (some now) ∧ qDaysTo (qparse kv.1) (some now) ≤ 0) ∧
        r = ⟨kv.1, kv.2, (qDaysTo (qparse kv.1) (some now)).natAbs⟩) := by
  unfold recentFilter
  dsimp only
  split
  · rename_i hcond
    simp only [Option.some.injEq]
    exact ⟨fun h => ⟨hcond, h.symm⟩, fun h => h.2.symm⟩
  · rename_i hcond
    simp only [reduceCtorEq, false_iff]
    exact fun h => hcond h.1

theorem upcomingFilter_eq_some (now : QDT) (kv : String × String) (u : UpcomingItem) :
    upcomingFilter now kv = some u ↔
      ((0 ≤ qDaysTo (some now) (qparse kv.1) ∧ qDaysTo (some now) (qparse kv.1) ≤ 14) ∧
        u = ⟨kv.1, kv.2, qDaysTo (some now) (qparse kv.1),
          decide (qDaysTo (some now) (qparse kv.1) ≤ 3)⟩) := by
  unfold upcomingFilter
  dsimp only
  split
  · rename_i hcond
    simp only [Option.some.injEq]
    exact ⟨fun h => ⟨hcond, h.symm⟩, fun h => h.2.symm⟩
  · rename_i hcond
    simp only [reduceCtorEq, false_iff]
    exact fun h => hcond h.1

/-! ## Claim theorems -/

/-- C1 (code bug): the recent-entry window is sign-flipped.  The code computes
`days_difference = entry_datetime.daysTo(current_datetime)`, which is
`now - entry` in whole days, and keeps `-7 <= days_difference <= 0`; that
keeps exactly the entries dated from `now` up to seven days *after* `now`
(contradicting the adjacent comment `# Past week entries`).  At
`now = 2024-06-10 09:00` the entry dated `2024-06-03 08:00` — inside the
claimed window `[now - 7 days, now]` — is excluded, while the entry dated
`2024-06-13 08:00` — outside that window — is included with `days_ago = 3`. -/
theorem recent_window_sign_flipped :
    (prepare_rag_context ⟨2024, 6, 10, 9, 0⟩
      [("2024-06-03 08:00", "ok")] []).recent_events = []
    ∧ (prepare_rag_context ⟨2024, 6, 10, 9, 0⟩
      [("2024-06-13 08:00", "plan")] []).recent_events =
        [⟨"2024-06-13 08:00", "plan", 3⟩]
    ∧ qDaysTo (qparse "2024-06-03 08:00") (some ⟨2024, 6, 10, 9, 0⟩) = 7
    ∧ qDaysTo (qparse "2024-06-13 08:00") (some ⟨2024, 6, 10, 9, 0⟩) = -3 := by
  decide

/-- C2 (counterexample): a key that does not parse as `yyyy-MM-dd HH:mm` is
*not* excluded from the context.  `QDateTime.fromString` yields an invalid
datetime, `daysTo` on an invalid datetime returns `0`, and `0` passes both
window tests, so the malformed key lands in `recent_events` *and* in
`upcoming_events`. -/
theorem malformed_key_not_excluded :
    (∃ r ∈ (prepare_rag_context ⟨2024, 6, 10, 9, 0⟩
        [("not-a-date", "x")] [("not-a-date", "y")]).recent_events,
      r.datetime = "not-a-date")
    ∧ (∃ u ∈ (prepare_rag_context ⟨2024, 6, 10, 9, 0⟩
        [("not-a-date", "x")] [("not-a-date", "y")]).upcoming_events,
      u.datetime = "not-a-date") := by
  decide

/-- C2 (amended): a diary or event key that is not parseable as a
`yyyy-MM-dd HH:mm` timestamp gets whole-day difference `0` (Qt's `daysTo`
on an invalid datetime), and is therefore *included*: in `recent_events`
with `days_ago = 0`, and in `upcoming_events` with `days_until = 0` and
`is_urgent = true`.  The build completes without failing either way. -/
theorem malformed_key_included (now : QDT) (diary events : List (String × String))
    (k v : String) (hk : qparse k = none) :
    ((k, v) ∈ diary →
      ∃ r ∈ (prepare_rag_context now diary events).recent_events,
        r.datetime = k ∧ r.content = v ∧ r.days_ago = 0)
    ∧ ((k, v) ∈ events →
      ∃ u ∈ (prepare_rag_context now diary events).upcoming_events,
        u.datetime = k ∧ u.event = v ∧ u.days_until = 0 ∧ u.is_urgent = true) := by
  constructor
  · intro hmem
    refine ⟨⟨k, v, 0⟩, ?_, rfl, rfl, rfl⟩
    rw [mem_recent_events]
    refine ⟨(k, v), hmem, ?_⟩
    rw [recentFilter_eq_some]
    simp [hk, qDaysTo]
  · intro hmem
    refine ⟨⟨k, v, 0, true⟩, ?_, rfl, rfl, rfl, rfl⟩
    rw [mem_upcoming_events]
    refine ⟨(k, v), hmem, ?_⟩
    rw [upcomingFilter_eq_some]
    simp [hk, qDaysTo]

/-- C2 (witness for the amended claim). -/
theorem malformed_key_included_witness :
    qparse "not/a/date" = none
    ∧ (∃ r ∈ (prepare_rag_context ⟨2024, 6, 10, 9, 0⟩
        [("not/a/date", "x")] [("not/a/date", "y")]).recent_events,
      r.datetime = "not/a/date" ∧ r.content = "x" ∧ r.days_ago = 0)
    ∧ (∃ u ∈ (prepare_rag_context ⟨2024, 6, 10, 9, 0⟩
        [("not/a/date", "x")] [("not/a/date", "y")]).upcoming_events,
      u.datetime = "not/a/date" ∧ u.event = "y" ∧ u.days_until = 0 ∧ u.is_urgent = true) :=
  ⟨by decide,
    (malformed_key_included ⟨2024, 6, 10, 9, 0⟩ [("not/a/date", "x")] [("not/a/date", "y")]
      "not/a/date" "x" (by decide)).1 (by decide),
    (malformed_key_included ⟨2024, 6, 10, 9, 0⟩ [("not/a/date", "x")] [("not/a/date", "y")]
      "not/a/date" "y" (by decide)).2 (by decide)⟩

/-- C3: a calendar event with a parseable timestamp is included in
`upcoming_events` exactly when the whole-day difference
`days_from_now = current_datetime.daysTo(event_datetime)` satisfies
`0 <= days_from_now <= 14`; every included item with that timestamp carries
`days_until = days_from_now` and `is_urgent` holds iff `days_until <= 3`. -/
theorem upcoming_window_iff (now : QDT) (diary events : List (String × String))
    (k v : String) (dt : QDT) (hk : qparse k = some dt) (hmem : (k, v) ∈ events) :
    ((∃ u ∈ (prepare_rag_context now diary events).upcoming_events,
        u.datetime = k ∧ u.event = v) ↔
      (0 ≤ qDaysTo (some now) (some dt) ∧ qDaysTo (some now) (some dt) ≤ 14))
    ∧ ∀ u ∈ (prepare_rag_context now diary events).upcoming_events, u.datetime = k →
        (u.days_until = qDaysTo (some now) (some dt) ∧
          (u.is_urgent = true ↔ u.days_until ≤ 3)) := by
  constructor
  · constructor
    · rintro ⟨u, hu, hdt, _⟩
      rw [mem_upcoming_events] at hu
      obtain ⟨kv, _, hfil⟩ := hu
      rw [upcomingFilter_eq_some] at hfil
      obtain ⟨hwin, rfl⟩ := hfil
      replace hdt : kv.1 = k := hdt
      rw [hdt, hk] at hwin
      exact hwin
    · intro hwin
      refine ⟨⟨k, v, qDaysTo (some now) (some dt),
        decide (qDaysTo (some now) (some dt) ≤ 3)⟩, ?_, rfl, rfl⟩
      rw [mem_upcoming_events]
      refine ⟨(k, v), hmem, ?_⟩
      rw [upcomingFilter_eq_some]
      constructor
      · rw [show (k, v).1 = k from rfl, hk]; exact hwin
      · rw [show (k, v).1 = k from rfl, hk]
  · intro u hu hdt
    rw [mem_upcoming_events] at hu
    obtain ⟨kv, _, hfil⟩ := hu
    rw [upcomingFilter_eq_some] at hfil
    obtain ⟨hwin, rfl⟩ := hfil
    replace hdt : kv.1 = k := hdt
    rw [hdt, hk]
    exact ⟨rfl, by simp⟩

/-- C3 (witness): the spec's own example scenario — at `now = 2024-06-10
09:00` the event at `2024-06-12 10:00` is upcoming and urgent
(`days_until = 2`), the event at `2024-07-01 10:00` is excluded
(`days_until = 21 > 14`). -/
theorem upcoming_window_iff_witness :
    ((∃ u ∈ (prepare_rag_context ⟨2024, 6, 10, 9, 0⟩ []
        [("2024-06-12 10:00", "dentist"), ("2024-07-01 10:00", "trip")]).upcoming_events,
      u.datetime = "2024-06-12 10:00" ∧ u.event = "dentist") ↔
      (0 ≤ qDaysTo (some ⟨2024, 6, 10, 9, 0⟩) (some ⟨2024, 6, 12, 10, 0⟩) ∧
        qDaysTo (some ⟨2024, 6, 10, 9, 0⟩) (some ⟨2024, 6, 12, 10, 0⟩) ≤ 14))
    ∧ ¬ (∃ u ∈ (prepare_rag_context ⟨2024, 6, 10, 9, 0⟩ []
        [("2024-06-12 10:00", "dentist"), ("2024-07-01 10:00", "trip")]).upcoming_events,
      u.datetime = "2024-07-01 10:00" ∧ u.event = "trip") :=
  ⟨(upcoming_window_iff ⟨2024, 6, 10, 9, 0⟩ []
      [("2024-06-12 10:00", "dentist"), ("2024-07-01 10:00", "trip")]
      "2024-06-12 10:00" "dentist" ⟨2024, 6, 12, 10, 0⟩ (by decide) (by decide)).1,
    fun hmem =>
      absurd ((upcoming_window_iff ⟨2024, 6, 10, 9, 0⟩ []
        [("2024-06-12 10:00", "dentist"), ("2024-07-01 10:00", "trip")]
        "2024-07-01 10:00" "trip" ⟨2024, 7, 1, 10, 0⟩ (by decide)
        (by decide)).1.1 hmem) (by decide)⟩

/-- C4: both sequences of the built context are sorted non-decreasingly by
their timestamp string, and on well-formed `yyyy-MM-dd HH:mm` keys the
lexicographic string order coincides with chronological order of the parsed
datetimes. -/
theorem context_sorted_and_lex_is_chronological (now : QDT)
    (diary events : List (String × String)) :
    (prepare_rag_context now diary events).recent_events.Pairwise
      (fun a b => a.datetime ≤ b.datetime)
    ∧ (prepare_rag_context now diary events).upcoming_events.Pairwise
      (fun a b => a.datetime ≤ b.datetime)
    ∧ ∀ (s₁ s₂ : String) (d₁ d₂ : QDT), qparse s₁ = some d₁ → qparse s₂ = some d₂ →
        ((s₁ ≤ s₂) ↔ chronLe d₁ d₂) := by
  refine ⟨?_, ?_, fun s₁ s₂ d₁ d₂ h₁ h₂ => qparse_le_iff h₁ h₂⟩
  · exact (pairwise_pySort leRecent leRecent_trans leRecent_total _).imp
      (fun h => (strLe_iff _ _).1 h)
  · exact (pairwise_pySort leUpcoming leUpcoming_trans leUpcoming_total _).imp
      (fun h => (strLe_iff _ _).1 h)

/-- C4 (witness): the hypotheses of the third conjunct discharged at two
concrete well-formed keys. -/
theorem context_sorted_and_lex_is_chronological_witness :
    ("2024-06-09 20:00" ≤ "2024-06-12 10:00") ↔
      chronLe ⟨2024, 6, 9, 20, 0⟩ ⟨2024, 6, 12, 10, 0⟩ :=
  (context_sorted_and_lex_is_chronological ⟨2024, 6, 10, 9, 0⟩ [] []).2.2
    "2024-06-09 20:00" "2024-06-12 10:00" ⟨2024, 6, 9, 20, 0⟩ ⟨2024, 6, 12, 10, 0⟩
    (by decide) (by decide)

/-- C5 (counterexample): the formatter re-sorts.  On a context whose
`recent_events` are not in ascending `datetime` order, the rendered section
differs from rendering the input order (the two lines come out swapped). -/
theorem formatter_reorders :
    (format_rag_context
      { current_datetime := "2024-06-10 09:00:00"
        recent_events := [⟨"2024-06-09 20:00", "fine", 1⟩, ⟨"2024-06-03 08:00", "ok", 7⟩]
        upcoming_events := []
        date_range := ⟨"2024-06-03", "2024-06-24"⟩ }).formatted_diary_entries ≠
    renderDiaryInInputOrder
      { current_datetime := "2024-06-10 09:00:00"
        recent_events := [⟨"2024-06-09 20:00", "fine", 1⟩, ⟨"2024-06-03 08:00", "ok", 7⟩]
        upcoming_events := []
        date_range := ⟨"2024-06-03", "2024-06-24"⟩ } := by
  decide

/-- C5 (amended): `format_rag_context` sorts each sequence ascending by its
`datetime` string before rendering; on a context whose sequences are already
sorted that way — as every context built by `prepare_rag_context` is — the
rendering order equals the input order. -/
theorem formatter_preserves_sorted_order (context : RagContext)
    (h1 : context.recent_events.Pairwise (fun a b => a.datetime ≤ b.datetime))
    (h2 : context.upcoming_events.Pairwise (fun a b => a.datetime ≤ b.datetime)) :
    (format_rag_context context).formatted_diary_entries =
      renderDiaryInInputOrder context
    ∧ (format_rag_context context).formatted_calendar_events =
      renderEventsInInputOrder context := by
  constructor
  · rw [show (format_rag_context context).formatted_diary_entries =
      String.intercalate "\n" ((pySort leRecent context.recent_events).map entryLine)
      from rfl,
      pySort_of_pairwise leRecent _ (h1.imp (fun h => (strLe_iff _ _).2 h))]
    rfl
  · rw [show (format_rag_context context).formatted_calendar_events =
      String.intercalate "\n" ((pySort leUpcoming context.upcoming_events).map eventLine)
      from rfl,
      pySort_of_pairwise leUpcoming _ (h2.imp (fun h => (strLe_iff _ _).2 h))]
    rfl

/-- C5 (witness for the amended claim): a concrete sorted context renders in
input order. -/
theorem formatter_preserves_sorted_order_witness :
    (format_rag_context
      { current_datetime := "2024-06-10 09:00:00"
        recent_events := [⟨"2024-06-03 08:00", "ok", 7⟩, ⟨"2024-06-09 20:00", "fine", 1⟩]
        upcoming_events := [⟨"2024-06-12 10:00", "dentist", 2, true⟩]
        date_range := ⟨"2024-06-03", "2024-06-24"⟩ }).formatted_diary_entries =
      renderDiaryInInputOrder
      { current_datetime := "2024-06-10 09:00:00"
        recent_events := [⟨"2024-06-03 08:00", "ok", 7⟩, ⟨"2024-06-09 20:00", "fine", 1⟩]
        upcoming_events := [⟨"2024-06-12 10:00", "dentist", 2, true⟩]
        date_range := ⟨"2024-06-03", "2024-06-24"⟩ } :=
  (formatter_preserves_sorted_order _
    (by
      refine List.Pairwise.cons (fun b hb => ?_) (List.pairwise_singleton _ _)
      rw [List.mem_singleton] at hb
      subst hb
      exact (strLe_iff _ _).1 (by decide))
    (List.pairwise_singleton _ _)).1

/-- C6: each diary line renders content of length ≤ 200 verbatim, and longer
content as exactly its first 200 characters followed by `"..."`. -/
theorem entryLine_truncation (e : RecentItem) :
    entryLine e = "[" ++ e.datetime ++ "] " ++
      (if e.content.length ≤ 200 then e.content
       else (e.content.data.take 200).asString ++ "...") := by
  unfold entryLine
  by_cases h : e.content.length ≤ 200
  · rw [if_pos h, if_neg (by omega)]
    rw [show e.content.data.take 200 = e.content.data from
      List.take_of_length_le (by simpa using h)]
    rw [show e.content.data.asString = e.content from String.asString_toList e.content]
    rw [String.append_empty]
  · rw [if_neg h, if_pos (by omega), String.append_assoc]

theorem lookup_none_iff_not_any (key : String) (fields : List (String × JValue)) :
    fields.lookup key = none ↔ fields.any (fun kv => kv.1 == key) = false := by
  induction fields with
  | nil => simp
  | cons kv rest ih =>
    obtain ⟨k1, v1⟩ := kv
    by_cases h : key = k1
    · subst h
      simp [List.lookup]
    · have h1 : (key == k1) = false := beq_eq_false_iff_ne.2 h
      have h2 : (k1 == key) = false := beq_eq_false_iff_ne.2 (Ne.symm h)
      simp [List.lookup, h1, h2, ih]

theorem any_eq_true_of_lookup_some {fields : List (String × JValue)} {key : String}
    {v : JValue} (h : fields.lookup key = some v) :
    fields.any (fun kv => kv.1 == key) = true := by
  by_cases ha : fields.any (fun kv => kv.1 == key) = true
  · exact ha
  · rw [Bool.not_eq_true] at ha
    rw [(lookup_none_iff_not_any key fields).2 ha] at h
    exact absurd h (by simp)

/-- C7: on a successfully parsed dict response, the request returns the first
completion's `text` field stripped of surrounding whitespace as a normal
(`.ok`) result; when the `choices` key is absent or maps to the empty list it
returns the sentinel `"No analysis available"`, also as a normal result. -/
theorem query_llm_success_extraction (fields : List (String × JValue)) :
    ((fields.lookup "choices" = none →
        query_llm (.parsed (.obj fields)) = .ok "No analysis available")
    ∧ (fields.lookup "choices" = some (.arr []) →
        query_llm (.parsed (.obj fields)) = .ok "No analysis available"))
    ∧ ∀ (cfields : List (String × JValue)) (rest : List JValue) (t : String),
        fields.lookup "choices" = some (.arr (.obj cfields :: rest)) →
        cfields.lookup "text" = some (.str t) →
        query_llm (.parsed (.obj fields)) = .ok (pyStrip t.data).asString := by
  refine ⟨⟨?_, ?_⟩, ?_⟩
  · intro h
    have hany := (lookup_none_iff_not_any "choices" fields).1 h
    simp [query_llm, extractAnalysisText, jContains, hany]
  · intro h
    have hany := any_eq_true_of_lookup_some h
    simp [query_llm, extractAnalysisText, jContains, jIndexStr, jTruthy, hany, h]
  · intro cfields rest t h1 h2
    have hany := any_eq_true_of_lookup_some h1
    simp [query_llm, extractAnalysisText, jContains, jIndexStr, jIndexZero, jGet,
      jStrip, jTruthy, hany, h1, h2]

/-- C7 (witness): the spec's two examples — `{"choices": [{"text": "  hello  "}]}`
yields `"hello"`, `{"choices": []}` and a response without `choices` yield the
sentinel. -/
theorem query_llm_success_extraction_witness :
    query_llm (.parsed (.obj [("choices", .arr [.obj [("text", .str "  hello  ")]])])) =
      .ok "hello"
    ∧ query_llm (.parsed (.obj [("choices", .arr [])])) = .ok "No analysis available"
    ∧ query_llm (.parsed (.obj [("model", .str "llama")])) = .ok "No analysis available" :=
  ⟨((query_llm_success_extraction
        [("choices", .arr [.obj [("text", .str "  hello  ")]])]).2
      [("text", .str "  hello  ")] [] "  hello  " rfl rfl).trans
      (congrArg Except.ok (by decide)),
    (query_llm_success_extraction [("choices", .arr [])]).1.2 rfl,
    (query_llm_success_extraction [("model", .str "llama")]).1.1 rfl⟩

/-- C10: when the first choice of a parsed response is a dict without a
`text` field, `dict.get` supplies the sentinel default, which is stripped and
returned as a normal result — no response-format error is raised. -/
theorem query_llm_missing_text (fields cfields : List (String × JValue))
    (rest : List JValue)
    (h1 : fields.lookup "choices" = some (.arr (.obj cfields :: rest)))
    (h2 : cfields.lookup "text" = none) :
    query_llm (.parsed (.obj fields)) = .ok "No analysis available" := by
  have hany := any_eq_true_of_lookup_some h1
  simp only [query_llm, extractAnalysisText, jContains, jIndexStr, jIndexZero, jGet,
    jStrip, jTruthy, hany, h1, h2]
  rfl

/-- C10 (witness). -/
theorem query_llm_missing_text_witness :
    query_llm (.parsed (.obj
      [("choices", .arr [.obj [("finish_reason", .str "stop")]])])) =
      .ok "No analysis available" :=
  query_llm_missing_text _ _ _ rfl rfl

/-- C8: a diary entry whose content is empty or all whitespace fails
`DataValidator.validate_entry` (`bool(entry.strip())` is false), so
`save_diary_entry` reports `"Diary entry cannot be empty."` and leaves both
the in-memory mapping and the persisted document unchanged. -/
theorem save_diary_entry_rejects_blank (st : AppState) (datetime_str entry : String)
    (h : ∀ c ∈ entry.data, pyIsSpace c = true) :
    save_diary_entry st datetime_str entry = (st, .error "Diary entry cannot be empty.") := by
  have h1 : entry.data.dropWhile pyIsSpace = [] := List.dropWhile_eq_nil_iff.2 h
  have hstrip : pyStrip entry.data = [] := by
    rw [pyStrip, h1]
    rfl
  simp [save_diary_entry, validate_entry, hstrip]

/-- C8 (witness): whitespace-only content, a non-empty starting state. -/
theorem save_diary_entry_rejects_blank_witness :
    save_diary_entry ⟨[("2024-06-01 10:00", "a")], [("2024-06-01 10:00", "a")]⟩
      "2024-06-02 11:00" " \t\n " =
    (⟨[("2024-06-01 10:00", "a")], [("2024-06-01 10:00", "a")]⟩,
      .error "Diary entry cannot be empty.") :=
  save_diary_entry_rejects_blank _ _ _ (by decide)

/-- C9 (counterexample): an unparseable response body is *not* reported as a
could-not-interpret failure.  `response.json()` raises the HTTP library's
`JSONDecodeError`, a `RequestException`, so the first handler reports it as
`"Failed to connect to LLM: ..."` — the could-not-reach label. -/
theorem unparseable_body_reported_as_connect_failure :
    query_llm (.jsonDecodeError "Expecting value: line 1 column 1 (char 0)") =
      .error ("Failed to connect to LLM: Expecting value: line 1 column 1 (char 0)")
    ∧ ¬ ∃ m, query_llm (.jsonDecodeError "Expecting value: line 1 column 1 (char 0)") =
        .error ("Error processing LLM response: " ++ m) := by
  refine ⟨rfl, ?_⟩
  rintro ⟨m, h⟩
  have hs : ("Failed to connect to LLM: Expecting value: line 1 column 1 (char 0)" : String) =
      "Error processing LLM response: " ++ m :=
    Except.error.inj ((rfl :
      query_llm (.jsonDecodeError "Expecting value: line 1 column 1 (char 0)") =
        .error "Failed to connect to LLM: Expecting value: line 1 column 1 (char 0)").symm.trans h)
  have hd : ('F' :: "ailed to connect to LLM: Expecting value: line 1 column 1 (char 0)".data) =
      'E' :: ("rror processing LLM response: ".data ++ m.data) := by
    have := congrArg String.data hs
    rw [String.data_append] at this
    exact this
  exact absurd (List.head_eq_of_cons_eq hd) (by decide)

/-- C9 (amended): the request fails exactly on connection errors, timeouts,
non-success HTTP statuses, unparseable bodies, or parsed bodies whose shape
defeats extraction.  Every pre-parse failure — the unparseable body included,
since the HTTP library's JSON decode error is a `RequestException` — is
reported as `"Failed to connect to LLM: ..."`; only extraction failures on a
parsed body get the `"Error processing LLM response: ..."` label. -/
theorem query_llm_failure_taxonomy (o : HttpOutcome) :
    ((∃ m, query_llm o = .error m) ↔
      ((∀ b, o ≠ .parsed b) ∨ ∃ b e, o = .parsed b ∧ extractAnalysisText b = .error e))
    ∧ ((∀ b, o ≠ .parsed b) →
        ∃ m, query_llm o = .error ("Failed to connect to LLM: " ++ m))
    ∧ (∀ b e, o = .parsed b → extractAnalysisText b = .error e →
        query_llm o = .error ("Error processing LLM response: " ++ e)) := by
  cases o with
  | parsed body =>
    refine ⟨⟨?_, ?_⟩, ?_, ?_⟩
    · rintro ⟨m, hm⟩
      right
      cases hx : extractAnalysisText body with
      | ok s => simp [query_llm, hx] at hm
      | error e => exact ⟨body, e, rfl, hx⟩
    · rintro (hne | ⟨b, e, heq, hx⟩)
      · exact absurd rfl (hne body)
      · injection heq with hb
        subst hb
        exact ⟨"Error processing LLM response: " ++ e, by simp [query_llm, hx]⟩
    · intro hne
      exact absurd rfl (hne body)
    · intro b e heq hx
      injection heq with hb
      subst hb
      simp [query_llm, hx]
  | connectionError m =>
    exact ⟨⟨fun _ => Or.inl (fun b h => nomatch h), fun _ => ⟨_, rfl⟩⟩,
      fun _ => ⟨m, rfl⟩, fun b e heq => nomatch heq⟩
  | timeoutError m =>
    exact ⟨⟨fun _ => Or.inl (fun b h => nomatch h), fun _ => ⟨_, rfl⟩⟩,
      fun _ => ⟨m, rfl⟩, fun b e heq => nomatch heq⟩
  | httpStatusError m =>
    exact ⟨⟨fun _ => Or.inl (fun b h => nomatch h), fun _ => ⟨_, rfl⟩⟩,
      fun _ => ⟨m, rfl⟩, fun b e heq => nomatch heq⟩
  | jsonDecodeError m =>
    exact ⟨⟨fun _ => Or.inl (fun b h => nomatch h), fun _ => ⟨_, rfl⟩⟩,
      fun _ => ⟨m, rfl⟩, fun b e heq => nomatch heq⟩

/-- C9 (witness for the amended claim): a timeout is reported with the
connect-failure label; a parsed body of the wrong shape is reported with the
processing-failure label. -/
theorem query_llm_failure_taxonomy_witness :
    (∃ m, query_llm (.timeoutError "timed out after 30s") =
      .error ("Failed to connect to LLM: " ++ m))
    ∧ query_llm (.parsed (.num 5)) =
      .error ("Error processing LLM response: " ++ "TypeError: argument is not iterable") :=
  ⟨(query_llm_failure_taxonomy (.timeoutError "timed out after 30s")).2.1
      (fun _ h => nomatch h),
    (query_llm_failure_taxonomy (.parsed (.num 5))).2.2 (.num 5)
      "TypeError: argument is not iterable" rfl rfl⟩
